import Mathlib

/-!
Verification development for the bot-API client transport core
(`src/core/network/mod.rs`), the `getUpdates` request builder
(`src/requests/all/get_updates.rs`), the dispatcher handler context
(`src/dispatching/dispatcher_handler_ctx.rs`), and the update poller
described in the specification.

Shallow embedding conventions:
- `serde_json::Value` is the inductive `Json`; numbers are modelled as `Int`
  (the claims only involve integral values).
- Effectful collaborators (the HTTP client, `serde_json` parsing, and
  `serde_json::from_value` for the operation's result type) are passed in as
  explicit function arguments / outcome values, since the repository code only
  branches on their outcomes.
- A Rust `panic!` (from `.unwrap()`) is the `ReqOutcome.panic` constructor.
-/

namespace Teloxide

/-- `serde_json::Value`, with numbers restricted to `Int`. -/
inductive Json where
  | null : Json
  | bool (b : Bool) : Json
  | num (n : Int) : Json
  | str (s : String) : Json
  | arr (elems : List Json) : Json
  | obj (fields : List (String × Json)) : Json

/-- `value[key]` for a string key (the `Index<&str>` impl of
`serde_json::Value`): field lookup on objects, `Null` on a missing field or a
non-object value. -/
def Json.index (j : Json) (key : String) : Json :=
  match j with
  | .obj fields =>
    match fields.find? (fun p => p.1 == key) with
    | some p => p.2
    | none => .null
  | _ => .null

/-- The `PartialEq<str>` impl of `serde_json::Value`: a value equals a string
slice iff it is `Value::String` with equal contents (`json == "false"`). -/
def Json.eqStr (j : Json) (s : String) : Bool :=
  match j with
  | .str t => t == s
  | _ => false

/-- JSON string escaping as performed by `serde_json`'s serializer, restricted
to the escapes exercised here (quote, backslash, and the common control
characters); other characters are emitted verbatim. -/
def escapeJsonChar (c : Char) : String :=
  if c = '"' then "\\\""
  else if c = '\\' then "\\\\"
  else if c = '\n' then "\\n"
  else if c = '\t' then "\\t"
  else if c = '\r' then "\\r"
  else String.singleton c

/-- Comma-separated rendering used by the compact serializer. -/
def commaSep : List String → String
  | [] => ""
  | [s] => s
  | s :: rest => s ++ "," ++ commaSep rest

mutual
/-- `Value::to_string()`: the compact JSON serialization produced by the
`Display` impl of `serde_json::Value`.  In particular a `Value::String` is
rendered WITH surrounding quotes. -/
def Json.toStringRepr : Json → String
  | .null => "null"
  | .bool b => if b then "true" else "false"
  | .num n => toString n
  | .str s => "\"" ++ String.join (s.data.map escapeJsonChar) ++ "\""
  | .arr elems => "[" ++ commaSep (Json.listToStringRepr elems) ++ "]"
  | .obj fields => "\x7b" ++ commaSep (Json.fieldsToStringRepr fields) ++ "\x7d"

def Json.listToStringRepr : List Json → List String
  | [] => []
  | j :: rest => j.toStringRepr :: Json.listToStringRepr rest

def Json.fieldsToStringRepr : List (String × Json) → List String
  | [] => []
  | (k, v) :: rest =>
    ("\"" ++ String.join (k.data.map escapeJsonChar) ++ "\":" ++ v.toStringRepr)
      :: Json.fieldsToStringRepr rest
end

/-- `RequestError` from `src/core/network/mod.rs`.  `StatusCode` is modelled
as the `Nat` status code; the wrapped `reqwest::Error` / `serde_json::Error`
causes are modelled by their message strings. -/
inductive RequestError where
  | ApiError (status_code : Nat) (description : String)
  | NetworkError (cause : String)
  | InvalidJson (cause : String)
deriving DecidableEq

/-- Outcome of the async `request` function: a typed success, a returned
`RequestError`, or a Rust panic (from `.unwrap()`). -/
inductive ReqOutcome (T : Type) where
  | ok (value : T)
  | err (e : RequestError)
  | panic
deriving DecidableEq

/-- Whether an outcome is a returned (classified) error value. -/
def ReqOutcome.isErr {T : Type} : ReqOutcome T → Bool
  | .err _ => true
  | _ => false

/-- `TELEGRAM_API_URL` constant. -/
def TELEGRAM_API_URL : String := "https://api.telegram.org"

/-- `method_url`: `format!("{url}/bot{token}/{method}")`. -/
def method_url (base : String) (token : String) (method_name : String) : String :=
  s!"{base}/bot{token}/{method_name}"

/-- `file_url`: `format!("{url}/file/bot{token}/{file}")`. -/
def file_url (base : String) (token : String) (file_path : String) : String :=
  s!"{base}/file/bot{token}/{file_path}"

/-- Body encoding chosen by the request builder.  The source either attaches a
multipart form (`request_builder.multipart(params)`) or leaves the builder
untouched (no body); a JSON text body (`json`) is included in the type so the
spec's alternative can be stated, but `request` never constructs it. -/
inductive RequestBody (F : Type) where
  | multipart (form : F)
  | json (text : String)
  | empty

/-- Whether a body is JSON-encoded text. -/
def RequestBody.isJsonText {F : Type} : RequestBody F → Bool
  | .json _ => true
  | _ => false

/-- The wire request assembled by `request` before `.send()`: the URL from
`method_url` and the body chosen by the `apply` closure over
`request.params()`. -/
structure WireRequest (F : Type) where
  url : String
  body : RequestBody F

/-- Lines 63–75 of `src/core/network/mod.rs`: POST to
`method_url(TELEGRAM_API_URL, token, name)`, with multipart body iff
`request.params()` is `Some`. -/
def buildWireRequest {F : Type} (token : String) (name : String)
    (params : Option F) : WireRequest F :=
  { url := method_url TELEGRAM_API_URL token name,
    body := match params with
            | some p => .multipart p
            | none => .empty }

/-- Lines 90–97 of `src/core/network/mod.rs`: classification of the parsed
response envelope.  `decodeT` is `serde_json::from_value` at the operation's
declared result type; its failure hits `.unwrap()`, i.e. a panic. -/
def classifyEnvelope {T : Type} (decodeT : Json → Except String T)
    (status : Nat) (response_json : Json) : ReqOutcome T :=
  if (response_json.index "ok").eqStr "false" then
    .err (.ApiError status (response_json.index "description").toStringRepr)
  else
    match decodeT (response_json.index "result") with
    | .ok v => .ok v
    | .error _ => .panic

/-- Outcome of `client.post(..).send()`: a transport failure, or a response
carrying the HTTP status and the outcome of the subsequent `.text()` read
(which is itself a network operation that can fail). -/
inductive SendOutcome where
  | fail (cause : String)
  | resp (status : Nat) (body : Except String String)

/-- The `request` function of `src/core/network/mod.rs` (lines 59–98), as a
function of the outcomes of its effectful collaborators: `parse` is
`serde_json::from_str::<Value>`, `decodeT` is `serde_json::from_value` at the
declared result type, and `sent` is the outcome of the POST. -/
def request {T : Type} (parse : String → Except String Json)
    (decodeT : Json → Except String T) (sent : SendOutcome) : ReqOutcome T :=
  match sent with
  | .fail cause => .err (.NetworkError cause)
  | .resp status bodyResult =>
    match bodyResult with
    | .error cause => .err (.NetworkError cause)
    | .ok body =>
      match parse body with
      | .error cause => .err (.InvalidJson cause)
      | .ok response_json => classifyEnvelope decodeT status response_json

/-! ### `getUpdates` request builder (`src/requests/all/get_updates.rs`) -/

/-- `AllowedUpdate` update-category tags (the variants named by the
`allowed_updates` doc comment of `GetUpdates`). -/
inductive AllowedUpdate where
  | message
  | editedChannelPost
  | callbackQuery
deriving DecidableEq

/-- Serialization of an `AllowedUpdate` tag. -/
def AllowedUpdate.toJson : AllowedUpdate → Json
  | .message => .str "message"
  | .editedChannelPost => .str "edited_channel_post"
  | .callbackQuery => .str "callback_query"

/-- Modelled from the spec: the `Bot` client handle (credentials + HTTP
client), absent from `src/`; only the token matters here. -/
structure Bot where
  token : String
deriving DecidableEq

/-- The `GetUpdates` request struct: a `bot` handle (marked
`skip_serializing`) and four optional parameters.  `offset` is `i32`
(modelled `Int`), `limit` is `u8` and `timeout` is `u32` (modelled `Nat`;
the builders only store values, so no wrap-around arithmetic occurs). -/
structure GetUpdates where
  bot : Bot
  offset : Option Int
  limit : Option Nat
  timeout : Option Nat
  allowed_updates : Option (List AllowedUpdate)
deriving DecidableEq

/-- `GetUpdates::new`: all four parameters start out `None`. -/
def GetUpdates.new (bot : Bot) : GetUpdates :=
  { bot := bot, offset := none, limit := none, timeout := none,
    allowed_updates := none }

/-- Builder `GetUpdates::offset` (named `set_offset` because the field already
uses the name). -/
def GetUpdates.set_offset (g : GetUpdates) (value : Int) : GetUpdates :=
  { g with offset := some value }

/-- Builder `GetUpdates::limit`. -/
def GetUpdates.set_limit (g : GetUpdates) (value : Nat) : GetUpdates :=
  { g with limit := some value }

/-- Builder `GetUpdates::timeout`. -/
def GetUpdates.set_timeout (g : GetUpdates) (value : Nat) : GetUpdates :=
  { g with timeout := some value }

/-- Builder `GetUpdates::allowed_updates`. -/
def GetUpdates.set_allowed_updates (g : GetUpdates) (value : List AllowedUpdate) :
    GetUpdates :=
  { g with allowed_updates := some value }

/-- The serialized parameter object of a `GetUpdates` request:
`#[serde_with_macros::skip_serializing_none]` + `#[derive(Serialize)]` with
`bot` skipped — each `Option` field is emitted iff it is `Some`, in
declaration order. -/
def GetUpdates.serializedParams (g : GetUpdates) : List (String × Json) :=
  (match g.offset with
   | some v => [("offset", Json.num v)]
   | none => []) ++
  (match g.limit with
   | some v => [("limit", Json.num (Int.ofNat v))]
   | none => []) ++
  (match g.timeout with
   | some v => [("timeout", Json.num (Int.ofNat v))]
   | none => []) ++
  (match g.allowed_updates with
   | some vs => [("allowed_updates", Json.arr (vs.map AllowedUpdate.toJson))]
   | none => [])

/-- The `limit` value a serialized `GetUpdates` request carries to the server
(`none` when the field is omitted). -/
def GetUpdates.carriedLimit (g : GetUpdates) : Option Json :=
  (g.serializedParams).lookup "limit"

/-! ### Update poller offset bookkeeping -/

/-- Modelled from the spec: an `Update` is an opaque payload bearing a unique
server-assigned `id` (the `Update` type itself is absent from `src/`; the
`offset` doc comment of `GetUpdates` describes the watermark discipline over
these ids). -/
structure Update where
  id : Int
deriving DecidableEq

/-- Modelled from the spec: one poll cycle of the Update Poller, absent from
`src/`.  "On successful response: for each returned update emit it
downstream, then set `offset = max(update.id) + 1`.  If the response is
empty, the offset is left unchanged."  The offset is `none` before the very
first call. -/
def pollStep (offset : Option Int) (batch : List Update) : Option Int :=
  match batch with
  | [] => offset
  | u :: us => some (us.foldl (fun m v => max m v.id) u.id + 1)

/-! ### Dispatcher handler context (`src/dispatching/dispatcher_handler_ctx.rs`) -/

/-- The `GetChatId` capability trait (`src/dispatching/session`): exposes the
conversation (chat) identifier of an update. -/
class GetChatId (α : Type) where
  chat_id : α → Int

/-- Modelled from the spec: a `Message` update exposing its conversation
identifier (the concrete `Message` type is absent from `src/`). -/
structure Message where
  chat : Int
deriving DecidableEq

instance : GetChatId Message := ⟨Message.chat⟩

/-- The "send message" remote operation as handed to the transport: the
target conversation id and the text. -/
structure SendMessageOp where
  chat_id : Int
  text : String
deriving DecidableEq

/-- Modelled from the spec: the transport used by `reply`, i.e.
`Bot::send_message(..).send()` (absent from `src/`): a single function from
the constructed operation to a transport result.  `σ` is the server's
successful result value (a sent-message payload), which `reply` discards. -/
structure ReplyBot (σ : Type) where
  bot : Bot
  transport : SendMessageOp → Except RequestError σ

/-- `DispatcherHandlerCtx`: a shared bot handle and exactly one update. -/
structure DispatcherHandlerCtx (σ : Type) (Upd : Type) where
  bot : ReplyBot σ
  update : Upd

/-- The `GetChatId` impl for `DispatcherHandlerCtx`: forwards to the wrapped
update. -/
instance {σ Upd : Type} [GetChatId Upd] : GetChatId (DispatcherHandlerCtx σ Upd) :=
  ⟨fun ctx => GetChatId.chat_id ctx.update⟩

/-- `DispatcherHandlerCtx::reply` (lines 29–40):
`self.bot.send_message(self.chat_id(), text).send().await.map(|_| ())`. -/
def DispatcherHandlerCtx.reply {σ : Type} (ctx : DispatcherHandlerCtx σ Message)
    (text : String) : Except RequestError Unit :=
  (ctx.bot.transport { chat_id := GetChatId.chat_id ctx, text := text }).map
    (fun _ => ())

/-! ### Concrete result decoders (used to instantiate `decodeT` at the
`getUpdates` operation's declared result type, `Vec<Update>`) -/

/-- `serde_json::from_value::<Update>`: an update is an object with an integer
`update_id` field. -/
def decodeUpdate : Json → Except String Update
  | .obj fields =>
    match (Json.obj fields).index "update_id" with
    | .num n => .ok ⟨n⟩
    | _ => .error "missing field update_id"
  | _ => .error "invalid type: expected struct Update"

/-- `serde_json::from_value::<Vec<Update>>`: an array of updates; any other
value (in particular `Null`, which `value["result"]` yields when the field is
absent) fails. -/
def decodeUpdates : Json → Except String (List Update)
  | .arr elems => elems.mapM decodeUpdate
  | _ => .error "invalid type: expected a sequence"

/-! ## Theorems -/

/-- C1: the spec demands that a falsy envelope (e.g. the JSON boolean
`false`) yield `ApiError` carrying exactly the HTTP status and exactly the
`description` string.  The code instead compares `response_json["ok"]`
against the STRING `"false"`: a boolean-false envelope takes the success
branch and the `.unwrap()` on the absent `result` panics; and even when the
`ok` field is the string `"false"`, the description is rendered by
`Value::to_string()`, which adds JSON quotes around it. -/
theorem envelope_not_ok_misclassified :
    classifyEnvelope decodeUpdates 401
      (.obj [("ok", .bool false), ("description", .str "Unauthorized")])
      = ReqOutcome.panic ∧
    classifyEnvelope decodeUpdates 401
      (.obj [("ok", .str "false"), ("description", .str "Unauthorized")])
      = .err (.ApiError 401 "\"Unauthorized\"") ∧
    "\"Unauthorized\"" ≠ "Unauthorized" :=
  ⟨rfl, rfl, by decide⟩

/-- C3: a response body that is not valid JSON (the parse step fails) makes
`request` return `InvalidJson` (the `DecodeError` kind) wrapping the parse
failure — pinned by the equation, so in particular it is never `ApiError`
and never a panic. -/
theorem invalid_json_yields_decode_error {T : Type}
    (parse : String → Except String Json) (decodeT : Json → Except String T)
    (status : Nat) (body cause : String) (h : parse body = .error cause) :
    request parse decodeT (.resp status (.ok body)) = .err (.InvalidJson cause) := by
  simp [request, h]

/-- Witness for C3 at a concrete malformed body. -/
theorem invalid_json_yields_decode_error_witness :
    request (fun _ => .error "expected value at line 1 column 1") decodeUpdates
      (.resp 200 (.ok "<html>not json</html>"))
      = .err (.InvalidJson "expected value at line 1 column 1") :=
  invalid_json_yields_decode_error (fun _ => .error "expected value at line 1 column 1")
    decodeUpdates 200 "<html>not json</html>" "expected value at line 1 column 1" rfl

/-- C4 counterexample: an envelope that is ok but whose `result` does not
deserialize into the declared result type makes the code PANIC (the
`.unwrap()` on line 96), not return a classified error value. -/
theorem ok_envelope_bad_result_counterexample :
    classifyEnvelope decodeUpdates 200
      (.obj [("ok", .bool true), ("result", .str "oops")]) = ReqOutcome.panic ∧
    (classifyEnvelope decodeUpdates 200
      (.obj [("ok", .bool true), ("result", .str "oops")])).isErr = false :=
  ⟨rfl, rfl⟩

/-- C4 amended: whenever the envelope is not classified as a failure (the
`ok` field does not equal the string `"false"`) and the `result` value fails
to deserialize into the declared result type, `request`'s envelope handling
panics via `.unwrap()` instead of returning a classified error. -/
theorem ok_envelope_bad_result_panics {T : Type}
    (decodeT : Json → Except String T) (status : Nat) (j : Json) (e : String)
    (hok : (j.index "ok").eqStr "false" = false)
    (hdec : decodeT (j.index "result") = .error e) :
    classifyEnvelope decodeT status j = ReqOutcome.panic := by
  simp [classifyEnvelope, hok, hdec]

/-- Witness for the amended C4 at a concrete envelope. -/
theorem ok_envelope_bad_result_panics_witness :
    classifyEnvelope decodeUpdates 200
      (.obj [("ok", .bool true), ("result", .num 5)]) = ReqOutcome.panic :=
  ok_envelope_bad_result_panics decodeUpdates 200
    (.obj [("ok", .bool true), ("result", .num 5)])
    "invalid type: expected a sequence" rfl rfl

/-- C5: a failed HTTP send returns `NetworkError` wrapping its cause, and a
successful send whose body read (`.text()`) fails also returns
`NetworkError` wrapping that cause — in both cases the equation pins the
result, so nothing is swallowed or reclassified. -/
theorem transport_failures_network_error {T : Type}
    (parse : String → Except String Json) (decodeT : Json → Except String T)
    (cause : String) (status : Nat) :
    request parse decodeT (.fail cause) = .err (.NetworkError cause) ∧
    request parse decodeT (.resp status (.error cause))
      = .err (.NetworkError cause) :=
  ⟨rfl, rfl⟩

/-- C6 counterexample: an operation with no multipart parameters is POSTed
with NO body at all (the `apply` closure leaves the request builder
untouched), not with a JSON-encoded text body as the claim states. -/
theorem non_multipart_body_counterexample :
    (buildWireRequest (F := Unit) "TOKEN" "getMe" none).body = RequestBody.empty ∧
    (buildWireRequest (F := Unit) "TOKEN" "getMe" none).body.isJsonText = false :=
  ⟨rfl, rfl⟩

/-- C6 amended: if the operation declares multipart parameters the body is
sent as multipart/form-data; otherwise the POST carries no body at all.  The
URL is always `method_url` of the API base, the token and the operation
name. -/
theorem request_body_encoding {F : Type} (token name : String) (params : Option F) :
    (∀ p, params = some p →
      (buildWireRequest token name params).body = RequestBody.multipart p) ∧
    (params = none → (buildWireRequest token name params).body = RequestBody.empty) ∧
    (buildWireRequest token name params).url = method_url TELEGRAM_API_URL token name := by
  refine ⟨?_, ?_, rfl⟩
  · intro p h; subst h; rfl
  · intro h; subst h; rfl

/-- Witness for the amended C6 at concrete operations with and without
multipart parameters. -/
theorem request_body_encoding_witness :
    (buildWireRequest (F := Unit) "TOKEN" "sendPhoto" (some ())).body
      = RequestBody.multipart () ∧
    (buildWireRequest (F := Unit) "TOKEN" "getMe" none).body = RequestBody.empty :=
  ⟨(request_body_encoding "TOKEN" "sendPhoto" (some ())).1 () rfl,
   (request_body_encoding "TOKEN" "getMe" (none : Option Unit)).2.1 rfl⟩

/-- C7: `method_url` and `file_url` are the plain concatenations
`base ++ "/bot" ++ token ++ "/" ++ name` and
`base ++ "/file/bot" ++ token ++ "/" ++ path`, for all inputs. -/
theorem url_construction (base token name path : String) :
    method_url base token name = base ++ "/bot" ++ token ++ "/" ++ name ∧
    file_url base token path = base ++ "/file/bot" ++ token ++ "/" ++ path := by
  constructor <;> simp [method_url, file_url, toString, String.append_assoc]

/-- C8 counterexample: the builders do not clamp `limit` — setting `limit`
to the valid `u8` value `200` carries `limit = 200` to the server, which is
outside the claimed 1–100 bound. -/
theorem limit_not_clamped_counterexample :
    ((GetUpdates.new ⟨"TOKEN"⟩).set_limit 200).carriedLimit
      = some (Json.num 200) ∧ ¬ ((200 : Int) ≤ 100) :=
  ⟨rfl, by decide⟩

/-- C8 amended: the `limit` field is carried to the server verbatim as the
caller set it (any `u8` value, unclamped), and when the caller does not set
it the field is omitted from the serialized request (the server then applies
its documented default of 100). -/
theorem limit_carried_verbatim (g : GetUpdates) (v : Nat) (bot : Bot) :
    (g.set_limit v).carriedLimit = some (Json.num (Int.ofNat v)) ∧
    (GetUpdates.new bot).carriedLimit = none := by
  constructor
  · rcases g with ⟨b, off, l, t, a⟩
    rcases off with _ | o <;> rfl
  · rfl

/-- C10: `GetUpdates::new` leaves all four parameters unset, and each builder
setter sets exactly its own field to `Some` of the given value while leaving
the other fields (and the bot handle) unchanged. -/
theorem getUpdates_new_and_setters_frame (bot : Bot) (g : GetUpdates) (o : Int)
    (l t : Nat) (a : List AllowedUpdate) :
    (GetUpdates.new bot).offset = none ∧
    (GetUpdates.new bot).limit = none ∧
    (GetUpdates.new bot).timeout = none ∧
    (GetUpdates.new bot).allowed_updates = none ∧
    (g.set_offset o).offset = some o ∧
    (g.set_offset o).limit = g.limit ∧
    (g.set_offset o).timeout = g.timeout ∧
    (g.set_offset o).allowed_updates = g.allowed_updates ∧
    (g.set_offset o).bot = g.bot ∧
    (g.set_limit l).limit = some l ∧
    (g.set_limit l).offset = g.offset ∧
    (g.set_limit l).timeout = g.timeout ∧
    (g.set_limit l).allowed_updates = g.allowed_updates ∧
    (g.set_limit l).bot = g.bot ∧
    (g.set_timeout t).timeout = some t ∧
    (g.set_timeout t).offset = g.offset ∧
    (g.set_timeout t).limit = g.limit ∧
    (g.set_timeout t).allowed_updates = g.allowed_updates ∧
    (g.set_timeout t).bot = g.bot ∧
    (g.set_allowed_updates a).allowed_updates = some a ∧
    (g.set_allowed_updates a).offset = g.offset ∧
    (g.set_allowed_updates a).limit = g.limit ∧
    (g.set_allowed_updates a).timeout = g.timeout ∧
    (g.set_allowed_updates a).bot = g.bot :=
  ⟨rfl, rfl, rfl, rfl, rfl, rfl, rfl, rfl, rfl, rfl, rfl, rfl, rfl, rfl, rfl,
   rfl, rfl, rfl, rfl, rfl, rfl, rfl, rfl, rfl⟩

/-- The running maximum computed by `pollStep` never drops below its initial
value. -/
theorem foldl_max_init_le (us : List Update) (a : Int) :
    a ≤ us.foldl (fun m v => max m v.id) a := by
  induction us generalizing a with
  | nil => exact le_refl a
  | cons u us ih => exact le_trans (le_max_left a u.id) (ih (max a u.id))

/-- The running maximum computed by `pollStep` bounds every id in the
batch. -/
theorem foldl_max_mem_le (us : List Update) (a : Int) :
    ∀ u ∈ us, u.id ≤ us.foldl (fun m v => max m v.id) a := by
  induction us generalizing a with
  | nil => intro u hu; cases hu
  | cons v us ih =>
    intro u hu
    rcases List.mem_cons.mp hu with h | h
    · subst h
      exact le_trans (le_max_right a u.id) (foldl_max_init_le us (max a u.id))
    · exact ih (max a v.id) u h

/-- The running maximum computed by `pollStep` is the initial value or one of
the batch ids. -/
theorem foldl_max_mem_or (us : List Update) (a : Int) :
    us.foldl (fun m v => max m v.id) a = a ∨
      ∃ u ∈ us, us.foldl (fun m v => max m v.id) a = u.id := by
  induction us generalizing a with
  | nil => left; rfl
  | cons v us ih =>
    rcases ih (max a v.id) with h | ⟨u, hu, h⟩
    · rcases le_total a v.id with hle | hle
      · right
        exact ⟨v, List.mem_cons_self v us,
          by rw [List.foldl_cons, h, max_eq_right hle]⟩
      · left
        rw [List.foldl_cons, h, max_eq_left hle]
    · right
      exact ⟨u, List.mem_cons_of_mem v hu, by rw [List.foldl_cons]; exact h⟩

/-- C2: processing an empty batch leaves the offset exactly unchanged;
processing a non-empty batch sets the offset to `m + 1` where `m` is the
maximum update id of the batch (it occurs in the batch and bounds every id in
it); and when every id of the batch is at least the current offset (the
server contract stated by the `offset` field's documentation), the new offset
is at least the old one, so the watermark is non-decreasing across poll
cycles. -/
theorem poll_offset_watermark (off : Option Int) (u : Update) (us : List Update) :
    pollStep off [] = off ∧
    (∃ m, pollStep off (u :: us) = some (m + 1) ∧
      m ∈ (u :: us).map Update.id ∧ ∀ v ∈ u :: us, v.id ≤ m) ∧
    (∀ o, off = some o → (∀ v ∈ u :: us, o ≤ v.id) →
      ∀ o', pollStep off (u :: us) = some o' → o ≤ o') := by
  refine ⟨rfl, ?_, ?_⟩
  · refine ⟨us.foldl (fun m v => max m v.id) u.id, ?_, ?_, ?_⟩
    · rfl
    · rcases foldl_max_mem_or us u.id with h | ⟨v, hv, h⟩
      · rw [h]
        exact List.mem_map.mpr ⟨u, List.mem_cons_self u us, rfl⟩
      · rw [h]
        exact List.mem_map.mpr ⟨v, List.mem_cons_of_mem u hv, rfl⟩
    · intro v hv
      rcases List.mem_cons.mp hv with h | h
      · subst h
        exact foldl_max_init_le us v.id
      · exact foldl_max_mem_le us u.id v h
  · intro o _ hlb o' ho'
    have hM : u.id ≤ us.foldl (fun m v => max m v.id) u.id :=
      foldl_max_init_le us u.id
    have hval : some (us.foldl (fun m v => max m v.id) u.id + 1) = some o' := ho'
    have heq := Option.some.inj hval
    have hou : o ≤ u.id := hlb u (List.mem_cons_self u us)
    omega

/-- Witness for C2: the spec's own scenario — a batch with ids 101 and 102
advances the offset to 103, which is at least the prior offset 100. -/
theorem poll_offset_watermark_witness :
    pollStep (some 100) [⟨101⟩, ⟨102⟩] = some 103 ∧ (100 : Int) ≤ 103 := by
  have h := poll_offset_watermark (some 100) ⟨101⟩ [⟨102⟩]
  exact ⟨by decide, h.2.2 100 rfl (by decide) 103 (by decide)⟩

/-- C9: `reply(text)` issues exactly one "send message" operation, whose
target is the wrapped update's chat id (the context's `chat_id` forwards to
the update's); on transport success it returns `()` discarding the server's
result, and on transport failure it returns the error unchanged. -/
theorem reply_sends_one_message {σ : Type} (bot : ReplyBot σ) (upd : Message)
    (text : String) :
    GetChatId.chat_id (DispatcherHandlerCtx.mk bot upd) = upd.chat ∧
    (∀ r, bot.transport ⟨upd.chat, text⟩ = .ok r →
      DispatcherHandlerCtx.reply ⟨bot, upd⟩ text = .ok ()) ∧
    (∀ e, bot.transport ⟨upd.chat, text⟩ = .error e →
      DispatcherHandlerCtx.reply ⟨bot, upd⟩ text = .error e) := by
  refine ⟨rfl, ?_, ?_⟩
  · intro r h
    show (bot.transport ⟨upd.chat, text⟩).map (fun _ => ()) = .ok ()
    rw [h]
    rfl
  · intro e h
    show (bot.transport ⟨upd.chat, text⟩).map (fun _ => ()) = .error e
    rw [h]
    rfl

/-- Witness for C9 with one always-succeeding and one always-failing
transport. -/
theorem reply_sends_one_message_witness :
    DispatcherHandlerCtx.reply
      (⟨⟨⟨"TOKEN"⟩, fun _ => Except.ok (⟨7⟩ : Message)⟩, ⟨42⟩⟩ :
        DispatcherHandlerCtx Message Message) "hi" = .ok () ∧
    DispatcherHandlerCtx.reply
      (⟨⟨⟨"TOKEN"⟩, fun _ => Except.error (RequestError.NetworkError "down")⟩, ⟨42⟩⟩ :
        DispatcherHandlerCtx Message Message) "hi"
      = .error (RequestError.NetworkError "down") :=
  ⟨(reply_sends_one_message ⟨⟨"TOKEN"⟩, fun _ => Except.ok (⟨7⟩ : Message)⟩
      ⟨42⟩ "hi").2.1 ⟨7⟩ rfl,
   (reply_sends_one_message
      (⟨⟨"TOKEN"⟩, fun _ => Except.error (RequestError.NetworkError "down")⟩ :
        ReplyBot Message) ⟨42⟩ "hi").2.2 (RequestError.NetworkError "down") rfl⟩

end Teloxide
